import Mathlib

/-
Verification of the legal-ocr-processor service (src/main.py) against its
natural-language specification.

The Python source is shallowly embedded: the two remote model services, the
PDF renderer, the image decoder, the word-processor extractor and the file
downloader are opaque fallible collaborators, modelled as function parameters
returning `Except String _` (an exception message) or `Option _` (a missing
value).  Pure control flow, string formatting and counting are translated
directly from the source.  The two asyncio semaphores and the concurrent
page tasks are modelled as a small-step transition system further below.
-/

/-! ## Generic string helpers (Python list/str primitives used by the source) -/

/-- Model of the Python `sep.join(parts)` operation. -/
def pyJoin (sep : String) : List String → String
  | [] => ""
  | [x] => x
  | x :: y :: rest => x ++ sep ++ pyJoin sep (y :: rest)

/-- Model of the Python `needle in hay` substring test. -/
def containsSub (needle : List Char) : List Char → Bool
  | [] => needle.isEmpty
  | c :: t => needle.isPrefixOf (c :: t) || containsSub needle t

/-- Substring test lifted to strings: `strContainsSub hay needle` models the
Python expression `needle in hay`. -/
def strContainsSub (hay needle : String) : Bool :=
  containsSub needle.toList hay.toList

/-- Fueled scanner behind `countOccur`; the fuel is an upper bound on the
haystack length, so the recursion is structural and kernel-reducible. -/
def countOccurF (needle : List Char) : Nat → List Char → Nat
  | 0, _ => 0
  | _ + 1, [] => 0
  | fuel + 1, c :: t =>
    if needle.isPrefixOf (c :: t) then 1 + countOccurF needle fuel (t.drop (needle.length - 1))
    else countOccurF needle fuel t

/-- Model of the Python `hay.count(needle)` non-overlapping occurrence count,
on character lists.  After a match the scan resumes past the matched slice. -/
def countOccur (needle hay : List Char) : Nat :=
  countOccurF needle hay.length hay

/-- Occurrence count lifted to strings, modelling `hay.count(needle)`. -/
def strCount (hay needle : String) : Nat :=
  countOccur needle.toList hay.toList

/-- Model of the Python `s.lower()` (ASCII case folding, as in the mime and
url strings the dispatcher handles). -/
def pyLower (s : String) : String :=
  String.mk (s.toList.map Char.toLower)

/-- Model of the Python `s.endswith(suffixStr)` test. -/
def pyEndsWith (s suffixStr : String) : Bool :=
  suffixStr.toList.isSuffixOf s.toList

/-! ## The two-stage page pipeline (src/main.py, process_page_pipeline)

`Img` abstracts the in-memory page image (PIL image / JPEG bytes); the
remote calls of the two stages are oracles `s1` (Gemini Flash transcription,
consuming the page image) and `s2` (Gemini Pro correction, consuming the
full prompt that embeds the raw text).  Besides the result pair the
embedding records the trace of remote calls actually issued, so that the
absence of a stage-2 call is expressible. -/

/-- Remote calls a pipeline invocation can issue. -/
inductive Call (Img : Type) where
  | stage1 (payload : Img)
  | stage2 (prompt : String)
deriving DecidableEq

/-- Stage-2 prompt construction: the f-string of src/main.py lines 75-82,
embedding the raw stage-1 text. -/
def stage2Prompt (raw_text : String) : String :=
  "You are an expert legal editor. Correct OCR errors in the text below based on Indian legal context.\n- Fix spellings (e.g. \x27petitiuner\x27 -> \x27Petitioner\x27).\n- Maintain original structure.\n- Do NOT summarize. Return full corrected text.\n\nTEXT:\n" ++ raw_text ++ "\n"

/-- The 2-stage pipeline for a single page (src/main.py lines 42-94).
Stage 1 failure short-circuits with a bracketed error annotation; stage 2
failure falls back to the raw text with an appended annotation.  The second
component is the list of remote calls issued. -/
def process_page_pipeline {Img : Type} (s1 : Img → Except String String)
    (s2 : String → Except String String) (image : Img) (page_num : Nat) :
    (Nat × String) × List (Call Img) :=
  match s1 image with
  | .error e => ((page_num, "[Stage 1 Error]: " ++ e), [Call.stage1 image])
  | .ok raw_text =>
    match s2 (stage2Prompt raw_text) with
    | .error e =>
      ((page_num, raw_text ++ ("\n[Stage 2 skipped due to error: " ++ e ++ "]")),
        [Call.stage1 image, Call.stage2 (stage2Prompt raw_text)])
    | .ok final_text =>
      ((page_num, final_text), [Call.stage1 image, Call.stage2 (stage2Prompt raw_text)])

/-! ## Document fan-out (src/main.py, process_pdf) -/

/-- Per-page results of the fan-out, in task-creation order: the list
comprehension of line 103, `enumerate` starting pages at 1. -/
def pageResults {Img : Type} (s1 : Img → Except String String)
    (s2 : String → Except String String) (images : List Img) : List (Nat × String) :=
  images.enum.map (fun p => (process_page_pipeline s1 s2 p.2 (p.1 + 1)).1)

/-- Key comparison used by `results.sort(key=lambda x: x[0])` (line 107). -/
def resultLE (a b : Nat × String) : Prop := a.1 ≤ b.1

instance instDecResultLE : DecidableRel resultLE :=
  fun a b => inferInstanceAs (Decidable (a.1 ≤ b.1))

/-- The sort of line 107.  The Python list sort is a stable comparison sort
on the page-number key; it is modelled by a stable insertion sort, which is
extensionally the same function. -/
def sortResults (rs : List (Nat × String)) : List (Nat × String) :=
  rs.insertionSort resultLE

/-- Page section formatting of line 109: the human-readable page marker
followed by the page text. -/
def renderSection (r : Nat × String) : String :=
  "--- PAGE " ++ toString r.1 ++ " ---\n" ++ r.2

/-- Assembly of a list of page results (in any completion order) into the
document report: sort by page number, format, join (lines 107-109). -/
def assembleReport (rs : List (Nat × String)) : String :=
  pyJoin "\n" ((sortResults rs).map renderSection)

/-- PDF processing (src/main.py lines 96-109): one pipeline task per page,
gather, sort by page number, join with page markers. -/
def process_pdf {Img : Type} (s1 : Img → Except String String)
    (s2 : String → Except String String) (images : List Img) : String :=
  assembleReport (pageResults s1 s2 images)

/-! ## Single-image, audio and docx processing (src/main.py lines 111-143) -/

/-- Single-image processing (lines 111-119): decode the bytes, run the page
pipeline with page number 1, and return the bare text (no page marker). -/
def process_image {Bytes Img : Type} (decode : Bytes → Except String Img)
    (s1 : Img → Except String String) (s2 : String → Except String String)
    (image_bytes : Bytes) : String :=
  match decode image_bytes with
  | .error e => "[Image Processing Error]: " ++ e
  | .ok image => (process_page_pipeline s1 s2 image 1).1.2

/-- Audio processing (lines 121-135): a single Flash call, no stage 2. -/
def process_audio {Bytes : Type} (audioCall : Bytes → String → Except String String)
    (audio_bytes : Bytes) (mime_type : String) : String :=
  match audioCall audio_bytes mime_type with
  | .ok t => t
  | .error e => "[Audio Processing Error]: " ++ e

/-- DOCX extraction (lines 137-143): join the paragraph texts. -/
def process_docx {Bytes : Type} (docxParas : Bytes → Except String (List String))
    (docx_bytes : Bytes) : String :=
  match docxParas docx_bytes with
  | .ok paras => pyJoin "\n" paras
  | .error e => "[DOCX Processing Error]: " ++ e

/-! ## Format dispatcher (src/main.py lines 222-247) -/

/-- Routes a file can take through the webhook. -/
inductive Route where
  | pdf | image | audio | docx | plainText | unsupported
deriving DecidableEq

/-- The branch cascade of lines 224-247: each branch tests the lowered mime
string and, for pdf / docx / txt, disjunctively the lowered url suffix. -/
def classify (mime url : String) : Route :=
  if strContainsSub (pyLower mime) "pdf" || pyEndsWith (pyLower url) ".pdf" then .pdf
  else if strContainsSub (pyLower mime) "image/jpeg" || strContainsSub (pyLower mime) "image/png"
      || strContainsSub (pyLower mime) "image/jpg" then .image
  else if strContainsSub (pyLower mime) "audio/" || strContainsSub (pyLower mime) "video/" then .audio
  else if strContainsSub (pyLower mime) "wordprocessingml" || pyEndsWith (pyLower url) ".docx" then .docx
  else if strContainsSub (pyLower mime) "text/plain" || pyEndsWith (pyLower url) ".txt" then .plainText
  else .unsupported

/-- Modelled from the spec: classification of a file by declared content
type alone (no extension), with the same per-class tests and priority order
as the routing table of the dispatcher.  Returns `none` when the content
type classifies the file as nothing. -/
def mimeRoute (mime : String) : Option Route :=
  if strContainsSub (pyLower mime) "pdf" then some .pdf
  else if strContainsSub (pyLower mime) "image/jpeg" || strContainsSub (pyLower mime) "image/png"
      || strContainsSub (pyLower mime) "image/jpg" then some .image
  else if strContainsSub (pyLower mime) "audio/" || strContainsSub (pyLower mime) "video/" then some .audio
  else if strContainsSub (pyLower mime) "wordprocessingml" then some .docx
  else if strContainsSub (pyLower mime) "text/plain" then some .plainText
  else none

/-- Test that a url carries none of the three filename suffixes the
dispatcher recognizes. -/
def noKnownExt (url : String) : Bool :=
  !(pyEndsWith (pyLower url) ".pdf" || pyEndsWith (pyLower url) ".docx" || pyEndsWith (pyLower url) ".txt")

/-! ## The webhook endpoint (src/main.py lines 186-279)

The batch descriptor, the per-file loop, and the final summary.  The
downloader, PDF renderer, image decoder, audio call, docx extractor, plain
text decoding and the Drive sink are oracles bundled in `Env`. -/

/-- One entry of the `files` array of the request body (url may be absent). -/
structure FileEntry where
  url : Option String
  name : String
deriving DecidableEq

/-- The parsed request body.  `hasFilesKey` models the Python test
`'files' not in data`; the remaining fields mirror the keys the handler
reads.  A missing or falsy body is modelled as `none` at the call site. -/
structure ReqBody where
  hasFilesKey : Bool
  files : List FileEntry
  instructionsText : Option String
  userName : Option String
  userEmail : Option String
deriving DecidableEq

/-- External collaborators of the webhook, bundled. -/
structure Env (Bytes Img : Type) where
  dl : String → Option (Bytes × String)
  render : Bytes → Except String (List Img)
  decode : Bytes → Except String Img
  s1 : Img → Except String String
  s2 : String → Except String String
  audioCall : Bytes → String → Except String String
  docxParas : Bytes → Except String (List String)
  textDecode : Bytes → String
  drive : Option (String × String)
  now : String

/-- One iteration of the per-file loop (lines 204-253): the report lines it
appends, its increment to `files_processed`, and its increment to
`total_pages`.  A missing url skips the file entirely; a failed download
records an error line; otherwise the file is dispatched on `classify` and,
except for a PDF renderer fault (the only fallible local step, caught by
the surrounding `except`), counts as processed. -/
def processOneFile {Bytes Img : Type} (env : Env Bytes Img) (f : FileEntry) :
    List String × Nat × Nat :=
  match f.url with
  | none => ([], 0, 0)
  | some url =>
    let header := ["\n=== FILE: " ++ f.name ++ " ===", "URL: " ++ url ++ "\n"]
    match env.dl url with
    | none => (header ++ ["[ERROR] Failed to download file\n"], 0, 0)
    | some (content, mime) =>
      match classify mime url with
      | .pdf =>
        match env.render content with
        | .error e => (header ++ ["[PROCESSING ERROR]: " ++ e], 0, 0)
        | .ok images =>
          let text := process_pdf env.s1 env.s2 images
          (header ++ [text], 1, strCount text "--- PAGE")
      | .image => (header ++ [process_image env.decode env.s1 env.s2 content], 1, 1)
      | .audio => (header ++ [process_audio env.audioCall content mime], 1, 0)
      | .docx => (header ++ [process_docx env.docxParas content], 1, 0)
      | .plainText => (header ++ [env.textDecode content], 1, 0)
      | .unsupported => (header ++ ["[UNSUPPORTED FILE TYPE: " ++ mime ++ "]"], 1, 0)

/-- The whole per-file loop: concatenated report lines and the two running
counters `files_processed` and `total_pages`. -/
def runFiles {Bytes Img : Type} (env : Env Bytes Img) : List FileEntry → List String × Nat × Nat
  | [] => ([], 0, 0)
  | f :: fs =>
    let r := processOneFile env f
    let rest := runFiles env fs
    (r.1 ++ rest.1, r.2.1 + rest.2.1, r.2.2 + rest.2.2)

/-- The success response body (lines 262-277), restricted to the fields the
handler sets.  `report_text` is inlined exactly when the Drive upload
failed. -/
structure WebhookResponse where
  status : String
  message : String
  files_processed : Nat
  total_pages : Nat
  drive_link : Option String
  report_text : Option String
deriving DecidableEq

/-- The report banner (lines 195-199). -/
def reportBanner {Bytes Img : Type} (env : Env Bytes Img) (data : ReqBody) : List String :=
  ["=== LEGAL OCR PROCESSING REPORT ===",
   "Generated: " ++ env.now,
   "Instructions: " ++ data.instructionsText.getD "N/A",
   "User: " ++ data.userName.getD "N/A" ++ " (" ++ data.userEmail.getD "N/A" ++ ")",
   "\n" ++ String.mk (List.replicate 60 (Char.ofNat 61)) ++ "\n"]

/-- The webhook handler (lines 186-279): HTTP status code paired with either
the error object (status 400) or the success response. -/
def webhook {Bytes Img : Type} (env : Env Bytes Img) (body : Option ReqBody) :
    Nat × Except String WebhookResponse :=
  match body with
  | none => (400, .error "No files provided")
  | some data =>
    if data.hasFilesKey = false then (400, .error "No files provided")
    else
      let r := runFiles env data.files
      let report_text := pyJoin "\n" (reportBanner env data ++ r.1)
      (200, .ok
        { status := "success"
          message := "Processing completed successfully"
          files_processed := r.2.1
          total_pages := r.2.2
          drive_link := env.drive.map Prod.snd
          report_text := if env.drive.isSome then none else some report_text })

/-! ## The two stage limiters under concurrent page tasks
(src/main.py lines 26-30, 42-94, 121-135)

The asyncio semaphores `SEM_FLASH` and `SEM_PRO` and the concurrently
scheduled page and audio tasks are modelled as a small-step transition
system.  A state holds the phase of every task together with the available
permits of each semaphore; a task advances through acquire / remote call /
release steps, and an acquire step is enabled only when a permit is
available.  The `async with` blocks of the source release the held permit on
both the normal and the exception exit, so every phase transition leaving a
permit-holding phase restores one permit. -/

/-- Capacity of the stage-1 (Flash) semaphore, line 28. -/
def SEM_FLASH : Nat := 50

/-- Capacity of the stage-2 (Pro) semaphore, line 30. -/
def SEM_PRO : Nat := 40

/-- Phase of one concurrently scheduled task: a page pipeline invocation
(phases of process_page_pipeline) or an audio transcription (process_audio). -/
inductive TaskState where
  | pageStart
  | pageS1
  | pageMid
  | pageS2
  | pageDone
  | audioStart
  | audioInCall
  | audioDone
deriving DecidableEq

/-- Whether a task in this phase holds a permit of the Flash semaphore. -/
def holdsFlash : TaskState → Bool
  | .pageS1 => true
  | .audioInCall => true
  | _ => false

/-- Whether a task in this phase holds a permit of the Pro semaphore. -/
def holdsPro : TaskState → Bool
  | .pageS2 => true
  | _ => false

/-- Global state: every task phase plus the available permits. -/
structure Sys where
  tasks : List TaskState
  flashAvail : Nat
  proAvail : Nat
deriving DecidableEq

/-- Number of tasks with an in-flight stage-1 (Flash-gated) call. -/
def flashHolders (s : Sys) : Nat := s.tasks.countP holdsFlash

/-- Number of tasks with an in-flight stage-2 (Pro-gated) call. -/
def proHolders (s : Sys) : Nat := s.tasks.countP holdsPro

/-- Initial state of a run: the given numbers of page and audio tasks, all
pending, and both semaphores at full capacity. -/
def initSys (pages audios : Nat) : Sys :=
  ⟨List.replicate pages .pageStart ++ List.replicate audios .audioStart, SEM_FLASH, SEM_PRO⟩

/-- Interleaved execution steps of the task pool. -/
inductive Step : Sys → Sys → Prop where
  | acquireFlashPage (s : Sys) (i : Nat) (h : s.tasks[i]? = some .pageStart)
      (ha : 0 < s.flashAvail) :
      Step s ⟨s.tasks.set i .pageS1, s.flashAvail - 1, s.proAvail⟩
  | stage1Success (s : Sys) (i : Nat) (h : s.tasks[i]? = some .pageS1) :
      Step s ⟨s.tasks.set i .pageMid, s.flashAvail + 1, s.proAvail⟩
  | stage1Failure (s : Sys) (i : Nat) (h : s.tasks[i]? = some .pageS1) :
      Step s ⟨s.tasks.set i .pageDone, s.flashAvail + 1, s.proAvail⟩
  | acquirePro (s : Sys) (i : Nat) (h : s.tasks[i]? = some .pageMid)
      (ha : 0 < s.proAvail) :
      Step s ⟨s.tasks.set i .pageS2, s.flashAvail, s.proAvail - 1⟩
  | stage2Finish (s : Sys) (i : Nat) (h : s.tasks[i]? = some .pageS2) :
      Step s ⟨s.tasks.set i .pageDone, s.flashAvail, s.proAvail + 1⟩
  | acquireFlashAudio (s : Sys) (i : Nat) (h : s.tasks[i]? = some .audioStart)
      (ha : 0 < s.flashAvail) :
      Step s ⟨s.tasks.set i .audioInCall, s.flashAvail - 1, s.proAvail⟩
  | audioFinish (s : Sys) (i : Nat) (h : s.tasks[i]? = some .audioInCall) :
      Step s ⟨s.tasks.set i .audioDone, s.flashAvail + 1, s.proAvail⟩

/-- Reflexive-transitive closure of `Step`. -/
inductive Reachable : Sys → Sys → Prop where
  | refl (s : Sys) : Reachable s s
  | tail {s t u : Sys} : Reachable s t → Step t u → Reachable s u

/-- The page marker needle counted by line 226 of the source
(`processed_text.count('--- PAGE')`). -/
def markerChars : List Char := "--- PAGE".toList

/-- Concrete environment for the two-file batch scenario: `a.pdf` downloads
as a PDF that renders to two page images, `b.xyz` downloads with an
unrecognized content type; the stage oracles remain abstract. -/
def envC9 (s1 : Nat → Except String String) (s2 : String → Except String String) :
    Env Nat Nat :=
  { dl := fun url =>
      if url = "a.pdf" then some (0, "application/pdf")
      else if url = "b.xyz" then some (1, "application/xyz")
      else none
    render := fun content => if content = 0 then .ok [0, 1] else .error "render"
    decode := fun _ => .error "decode"
    s1 := s1
    s2 := s2
    audioCall := fun _ _ => .error "audio"
    docxParas := fun _ => .error "docx"
    textDecode := fun _ => ""
    drive := none
    now := "t" }

/-- The two-file batch of the scenario: one 2-page PDF, one `.xyz` file. -/
def batchC9 : List FileEntry := [⟨some "a.pdf", "a.pdf"⟩, ⟨some "b.xyz", "b.xyz"⟩]

/-! ## Lemmas: the limiter invariant -/

/-- Conservation invariant of a system state: for each semaphore, available
permits plus held permits equal its capacity. -/
def SemInv (s : Sys) : Prop :=
  s.flashAvail + flashHolders s = SEM_FLASH ∧ s.proAvail + proHolders s = SEM_PRO

theorem countP_set_of_getElem {α : Type} (p : α → Bool) (l : List α) (i : Nat) (a b : α)
    (h : l[i]? = some b) :
    (l.set i a).countP p = l.countP p - (if p b then 1 else 0) + (if p a then 1 else 0) := by
  obtain ⟨hlen, hget⟩ := List.getElem?_eq_some.mp h
  rw [List.countP_set p l i a hlen, hget]

theorem countP_pos_of_getElem {α : Type} (p : α → Bool) (l : List α) (i : Nat) (b : α)
    (h : l[i]? = some b) (hb : p b = true) : 0 < l.countP p := by
  obtain ⟨hlen, hget⟩ := List.getElem?_eq_some.mp h
  exact List.countP_pos_iff.mpr ⟨b, hget ▸ List.getElem_mem hlen, hb⟩

theorem inv_init (pages audios : Nat) : SemInv (initSys pages audios) := by
  constructor <;>
    simp [initSys, flashHolders, proHolders, List.countP_append, List.countP_replicate,
      holdsFlash, holdsPro]

theorem inv_step {s t : Sys} (hst : Step s t) (hinv : SemInv s) : SemInv t := by
  obtain ⟨hf, hp⟩ := hinv
  cases hst with
  | acquireFlashPage i h ha =>
    have hcF := countP_set_of_getElem holdsFlash s.tasks i .pageS1 _ h
    have hcP := countP_set_of_getElem holdsPro s.tasks i .pageS1 _ h
    simp [holdsFlash, holdsPro] at hcF hcP
    constructor <;> simp only [flashHolders, proHolders, hcF, hcP] at * <;> omega
  | stage1Success i h =>
    have hpos := countP_pos_of_getElem holdsFlash s.tasks i _ h rfl
    have hcF := countP_set_of_getElem holdsFlash s.tasks i .pageMid _ h
    have hcP := countP_set_of_getElem holdsPro s.tasks i .pageMid _ h
    simp [holdsFlash, holdsPro] at hcF hcP
    constructor <;> simp only [flashHolders, proHolders, hcF, hcP] at * <;> omega
  | stage1Failure i h =>
    have hpos := countP_pos_of_getElem holdsFlash s.tasks i _ h rfl
    have hcF := countP_set_of_getElem holdsFlash s.tasks i .pageDone _ h
    have hcP := countP_set_of_getElem holdsPro s.tasks i .pageDone _ h
    simp [holdsFlash, holdsPro] at hcF hcP
    constructor <;> simp only [flashHolders, proHolders, hcF, hcP] at * <;> omega
  | acquirePro i h ha =>
    have hcF := countP_set_of_getElem holdsFlash s.tasks i .pageS2 _ h
    have hcP := countP_set_of_getElem holdsPro s.tasks i .pageS2 _ h
    simp [holdsFlash, holdsPro] at hcF hcP
    constructor <;> simp only [flashHolders, proHolders, hcF, hcP] at * <;> omega
  | stage2Finish i h =>
    have hpos := countP_pos_of_getElem holdsPro s.tasks i _ h rfl
    have hcF := countP_set_of_getElem holdsFlash s.tasks i .pageDone _ h
    have hcP := countP_set_of_getElem holdsPro s.tasks i .pageDone _ h
    simp [holdsFlash, holdsPro] at hcF hcP
    constructor <;> simp only [flashHolders, proHolders, hcF, hcP] at * <;> omega
  | acquireFlashAudio i h ha =>
    have hcF := countP_set_of_getElem holdsFlash s.tasks i .audioInCall _ h
    have hcP := countP_set_of_getElem holdsPro s.tasks i .audioInCall _ h
    simp [holdsFlash, holdsPro] at hcF hcP
    constructor <;> simp only [flashHolders, proHolders, hcF, hcP] at * <;> omega
  | audioFinish i h =>
    have hpos := countP_pos_of_getElem holdsFlash s.tasks i _ h rfl
    have hcF := countP_set_of_getElem holdsFlash s.tasks i .audioDone _ h
    have hcP := countP_set_of_getElem holdsPro s.tasks i .audioDone _ h
    simp [holdsFlash, holdsPro] at hcF hcP
    constructor <;> simp only [flashHolders, proHolders, hcF, hcP] at * <;> omega

theorem inv_reachable {pages audios : Nat} {s : Sys}
    (h : Reachable (initSys pages audios) s) : SemInv s := by
  induction h with
  | refl => exact inv_init pages audios
  | tail _ hstep ih => exact inv_step hstep ih

/-- C2: at every reachable state, the number of in-flight stage-1 calls never
exceeds the Flash limiter capacity, the number of in-flight stage-2 calls
never exceeds the Pro limiter capacity, and the stage-1 capacity is strictly
higher than the stage-2 capacity. -/
theorem C2_stage_limiter_capacity :
    (∀ (pages audios : Nat) (s : Sys), Reachable (initSys pages audios) s →
      flashHolders s ≤ SEM_FLASH ∧ proHolders s ≤ SEM_PRO) ∧ SEM_PRO < SEM_FLASH := by
  refine ⟨fun pages audios s h => ?_, by decide⟩
  obtain ⟨hf, hp⟩ := inv_reachable h
  exact ⟨by omega, by omega⟩

/-- Witness for C2: a run of two page tasks and one audio task, after one
task acquired a Flash permit and started its stage-1 call. -/
theorem C2_stage_limiter_capacity_witness :
    flashHolders ⟨[TaskState.pageS1, TaskState.pageStart, TaskState.audioStart], 49, 40⟩ ≤ SEM_FLASH ∧
      proHolders ⟨[TaskState.pageS1, TaskState.pageStart, TaskState.audioStart], 49, 40⟩ ≤ SEM_PRO := by
  have h1 : Step (initSys 2 1) ⟨[TaskState.pageS1, TaskState.pageStart, TaskState.audioStart], 49, 40⟩ :=
    Step.acquireFlashPage (initSys 2 1) 0 rfl (by decide)
  exact C2_stage_limiter_capacity.1 2 1 _ (Reachable.tail (Reachable.refl _) h1)

/-- C5: every permit acquired by a pipeline or audio invocation is released
on every exit path of the guarded section, so once all tasks of a run have
completed, both limiters are back at full capacity. -/
theorem C5_permits_restored (pages audios : Nat) (s : Sys)
    (h : Reachable (initSys pages audios) s)
    (hdone : ∀ t ∈ s.tasks, t = TaskState.pageDone ∨ t = TaskState.audioDone) :
    s.flashAvail = SEM_FLASH ∧ s.proAvail = SEM_PRO := by
  obtain ⟨hf, hp⟩ := inv_reachable h
  have hF : flashHolders s = 0 := List.countP_eq_zero.mpr
    (fun a ha => by rcases hdone a ha with rfl | rfl <;> simp [holdsFlash])
  have hP : proHolders s = 0 := List.countP_eq_zero.mpr
    (fun a ha => by rcases hdone a ha with rfl | rfl <;> simp [holdsPro])
  omega

/-- Witness for C5: one page task runs to completion through all four steps
(acquire Flash, finish stage 1, acquire Pro, finish stage 2); at the final
state both semaphores are back at capacity. -/
theorem C5_permits_restored_witness :
    (⟨[TaskState.pageDone], SEM_FLASH, SEM_PRO⟩ : Sys).flashAvail = SEM_FLASH ∧
      (⟨[TaskState.pageDone], SEM_FLASH, SEM_PRO⟩ : Sys).proAvail = SEM_PRO := by
  have h1 : Step (initSys 1 0) ⟨[TaskState.pageS1], 49, 40⟩ :=
    Step.acquireFlashPage (initSys 1 0) 0 rfl (by decide)
  have h2 : Step ⟨[TaskState.pageS1], 49, 40⟩ ⟨[TaskState.pageMid], 50, 40⟩ :=
    Step.stage1Success _ 0 rfl
  have h3 : Step ⟨[TaskState.pageMid], 50, 40⟩ ⟨[TaskState.pageS2], 50, 39⟩ :=
    Step.acquirePro _ 0 rfl (by decide)
  have h4 : Step ⟨[TaskState.pageS2], 50, 39⟩ ⟨[TaskState.pageDone], 50, 40⟩ :=
    Step.stage2Finish _ 0 rfl
  exact C5_permits_restored 1 0 _
    (Reachable.tail (Reachable.tail (Reachable.tail (Reachable.tail (Reachable.refl _) h1) h2) h3) h4)
    (by decide)

/-! ## Lemmas: the page pipeline -/

/-- The pipeline always reports the page number it was invoked with. -/
theorem process_page_pipeline_fst {Img : Type} (s1 : Img → Except String String)
    (s2 : String → Except String String) (image : Img) (page_num : Nat) :
    (process_page_pipeline s1 s2 image page_num).1.1 = page_num := by
  cases h1 : s1 image with
  | error e => simp [process_page_pipeline, h1]
  | ok raw_text =>
    cases h2 : s2 (stage2Prompt raw_text) <;> simp [process_page_pipeline, h1, h2]

/-- C3: when the stage-1 call fails for a page, the result of the pipeline is
the bracketed stage-1 error annotation embedding the failure message, and no
stage-2 call is issued for that page. -/
theorem C3_stage1_failure_skips_stage2 {Img : Type} (s1 : Img → Except String String)
    (s2 : String → Except String String) (image : Img) (page_num : Nat) (e : String)
    (h : s1 image = .error e) :
    (process_page_pipeline s1 s2 image page_num).1 = (page_num, "[Stage 1 Error]: " ++ e) ∧
      ∀ prompt, Call.stage2 prompt ∉ (process_page_pipeline s1 s2 image page_num).2 := by
  constructor
  · simp [process_page_pipeline, h]
  · intro prompt
    simp [process_page_pipeline, h]

/-- Witness for C3 at a concrete failing stage-1 oracle. -/
theorem C3_stage1_failure_skips_stage2_witness :
    ((fun _ : Nat => (Except.error "boom" : Except String String)) 0 = Except.error "boom") ∧
      (process_page_pipeline (fun _ : Nat => (Except.error "boom" : Except String String))
          (fun _ => Except.ok "x") 0 7).1 = (7, "[Stage 1 Error]: " ++ "boom") ∧
      ∀ prompt, Call.stage2 prompt ∉
        (process_page_pipeline (fun _ : Nat => (Except.error "boom" : Except String String))
          (fun _ => Except.ok "x") 0 7).2 := by
  have h := C3_stage1_failure_skips_stage2 (fun _ : Nat => (Except.error "boom" : Except String String))
    (fun _ => Except.ok "x") 0 7 "boom" rfl
  exact ⟨rfl, h.1, h.2⟩

/-- C4: when stage 1 succeeds with raw text and the stage-2 call fails, the
result text is the raw text with the appended inline annotation naming the
stage-2 error; in particular nonempty raw text is never lost. -/
theorem C4_stage2_failure_degrades {Img : Type} (s1 : Img → Except String String)
    (s2 : String → Except String String) (image : Img) (page_num : Nat)
    (raw_text e : String) (h1 : s1 image = .ok raw_text)
    (h2 : s2 (stage2Prompt raw_text) = .error e) :
    (process_page_pipeline s1 s2 image page_num).1.2
        = raw_text ++ ("\n[Stage 2 skipped due to error: " ++ e ++ "]") ∧
      (raw_text ≠ "" → (process_page_pipeline s1 s2 image page_num).1.2 ≠ "") := by
  have he : (process_page_pipeline s1 s2 image page_num).1.2
      = raw_text ++ ("\n[Stage 2 skipped due to error: " ++ e ++ "]") := by
    simp [process_page_pipeline, h1, h2]
  refine ⟨he, fun _ hcontra => ?_⟩
  rw [he] at hcontra
  have hd := congrArg String.data hcontra
  simp [String.data_append] at hd

/-- Witness for C4 at a concrete pair of oracles. -/
theorem C4_stage2_failure_degrades_witness :
    ((fun _ : Nat => (Except.ok "raw" : Except String String)) 0 = Except.ok "raw") ∧
      ((fun _ : String => (Except.error "quota" : Except String String)) (stage2Prompt "raw")
        = Except.error "quota") ∧
      (process_page_pipeline (fun _ : Nat => (Except.ok "raw" : Except String String))
          (fun _ => Except.error "quota") 0 3).1.2
        = "raw" ++ ("\n[Stage 2 skipped due to error: " ++ "quota" ++ "]") ∧
      ("raw" ≠ "" →
        (process_page_pipeline (fun _ : Nat => (Except.ok "raw" : Except String String))
          (fun _ => Except.error "quota") 0 3).1.2 ≠ "") := by
  have h := C4_stage2_failure_degrades (fun _ : Nat => (Except.ok "raw" : Except String String))
    (fun _ => Except.error "quota") 0 3 "raw" "quota" rfl rfl
  exact ⟨rfl, rfl, h.1, h.2⟩

/-- C6 counterexample: the pipeline result is a pair, not a triple, and no
component of it records whether stage 2 succeeded: a stage-2 success whose
returned text happens to equal the fallback annotation produces a result
identical to that of a stage-2 failure, so the claimed `stage_reached`
component cannot exist. -/
theorem C6_no_stage_reached_component :
    ((fun _ : String => (Except.ok ("R" ++ "\n[Stage 2 skipped due to error: boom]")
        : Except String String)) (stage2Prompt "R")).isOk = true ∧
      ((fun _ : String => (Except.error "boom" : Except String String))
        (stage2Prompt "R")).isOk = false ∧
      process_page_pipeline (fun _ : Nat => Except.ok "R")
          (fun _ => Except.ok ("R" ++ "\n[Stage 2 skipped due to error: boom]")) 0 1
        = process_page_pipeline (fun _ : Nat => Except.ok "R")
          (fun _ => Except.error "boom") 0 1 := by
  refine ⟨rfl, rfl, ?_⟩
  rfl

/-- C6 as amended: every pipeline result is a pair `(page_number, text)`:
the page number is the one the pipeline was invoked with, and the text is
determined by the two stage outcomes (stage-1 error annotation, raw text
with appended stage-2 annotation, or corrected text). -/
theorem C6_result_is_pair {Img : Type} (s1 : Img → Except String String)
    (s2 : String → Except String String) (image : Img) (page_num : Nat) :
    (process_page_pipeline s1 s2 image page_num).1.1 = page_num ∧
      (process_page_pipeline s1 s2 image page_num).1.2
        = match s1 image with
          | .error e => "[Stage 1 Error]: " ++ e
          | .ok raw_text =>
            match s2 (stage2Prompt raw_text) with
            | .error e => raw_text ++ ("\n[Stage 2 skipped due to error: " ++ e ++ "]")
            | .ok final_text => final_text := by
  refine ⟨process_page_pipeline_fst s1 s2 image page_num, ?_⟩
  cases h1 : s1 image with
  | error e => simp [process_page_pipeline, h1]
  | ok raw_text =>
    cases h2 : s2 (stage2Prompt raw_text) <;> simp [process_page_pipeline, h1, h2]

/-- C7 counterexample: a decodable single image processed through the image
route yields the bare pipeline text, which differs from the output of a
one-page document fan-out: the page marker prefix is absent. -/
theorem C7_image_route_lacks_marker :
    process_pdf (fun _ : Nat => Except.ok "R") (fun _ => Except.ok "C") [0]
        = "--- PAGE 1 ---\n" ++ process_image (fun b : Nat => (Except.ok b : Except String Nat))
            (fun _ : Nat => Except.ok "R") (fun _ => Except.ok "C") 0 ∧
      process_image (fun b : Nat => (Except.ok b : Except String Nat))
          (fun _ : Nat => Except.ok "R") (fun _ => Except.ok "C") 0
        ≠ process_pdf (fun _ : Nat => Except.ok "R") (fun _ => Except.ok "C") [0] := by
  exact ⟨rfl, by decide⟩

/-- C7 as amended: a decodable single image is processed by one page
pipeline invocation with page number 1 and its text is emitted directly,
without the page marker; prefixing the marker for page 1 gives exactly the
one-page fan-out output. -/
theorem C7_image_route_is_bare_page1 {Bytes Img : Type} (decode : Bytes → Except String Img)
    (s1 : Img → Except String String) (s2 : String → Except String String)
    (b : Bytes) (img : Img) (h : decode b = .ok img) :
    process_image decode s1 s2 b = (process_page_pipeline s1 s2 img 1).1.2 ∧
      process_pdf s1 s2 [img] = "--- PAGE 1 ---\n" ++ process_image decode s1 s2 b := by
  have h1 : process_image decode s1 s2 b = (process_page_pipeline s1 s2 img 1).1.2 := by
    simp [process_image, h]
  refine ⟨h1, ?_⟩
  rw [h1]
  rcases hp : process_page_pipeline s1 s2 img 1 with ⟨⟨n, t⟩, tr⟩
  have hn : n = 1 := by
    have := process_page_pipeline_fst s1 s2 img 1
    rw [hp] at this
    exact this
  subst hn
  have hpr : pageResults s1 s2 [img] = [(1, t)] := by
    simp [pageResults, List.enum, hp]
  simp only [process_pdf, assembleReport, sortResults, hpr, List.insertionSort,
    List.orderedInsert, List.map, renderSection, pyJoin, hp]
  rfl

/-- Witness for C7 as amended, at a concrete decoder and oracles. -/
theorem C7_image_route_is_bare_page1_witness :
    ((fun b : Nat => (Except.ok b : Except String Nat)) 0 = Except.ok 0) ∧
      process_image (fun b : Nat => (Except.ok b : Except String Nat))
          (fun _ : Nat => Except.ok "R") (fun _ => Except.ok "C") 0
        = (process_page_pipeline (fun _ : Nat => Except.ok "R") (fun _ => Except.ok "C") 0 1).1.2 ∧
      process_pdf (fun _ : Nat => Except.ok "R") (fun _ => Except.ok "C") [0]
        = "--- PAGE 1 ---\n" ++ process_image (fun b : Nat => (Except.ok b : Except String Nat))
            (fun _ : Nat => Except.ok "R") (fun _ => Except.ok "C") 0 := by
  have h := C7_image_route_is_bare_page1 (fun b : Nat => (Except.ok b : Except String Nat))
    (fun _ : Nat => Except.ok "R") (fun _ => Except.ok "C") 0 0 rfl
  exact ⟨rfl, h.1, h.2⟩

/-! ## Lemmas: fan-out ordering -/

/-- The page numbers of the fan-out results, in task order, are 1..N. -/
theorem pageResults_keys {Img : Type} (s1 : Img → Except String String)
    (s2 : String → Except String String) (images : List Img) :
    (pageResults s1 s2 images).map Prod.fst = List.range' 1 images.length := by
  have h1 : (pageResults s1 s2 images).map Prod.fst
      = images.enum.map (fun p => p.1 + 1) := by
    simp only [pageResults, List.map_map]
    exact List.map_congr_left
      (fun p _ => process_page_pipeline_fst s1 s2 p.2 (p.1 + 1))
  have h2 : images.enum.map (fun p => p.1 + 1)
      = (images.enum.map Prod.fst).map (fun i => i + 1) := by
    rw [List.map_map]
    rfl
  rw [h1, h2, List.enum_map_fst, List.range'_eq_map_range]
  exact List.map_congr_left (fun a _ => Nat.add_comm a 1)

/-- The fan-out results are already strictly sorted by page number. -/
theorem pageResults_sorted {Img : Type} (s1 : Img → Except String String)
    (s2 : String → Except String String) (images : List Img) :
    List.Sorted (fun a b : Nat × String => a.1 < b.1) (pageResults s1 s2 images) := by
  have hk := pageResults_keys s1 s2 images
  have hp : List.Pairwise (· < ·) ((pageResults s1 s2 images).map Prod.fst) := by
    rw [hk]
    exact List.pairwise_lt_range' 1 images.length
  exact List.pairwise_map.mp hp

/-- The page numbers of the fan-out results contain no duplicate. -/
theorem pageResults_keys_nodup {Img : Type} (s1 : Img → Except String String)
    (s2 : String → Except String String) (images : List Img) :
    ((pageResults s1 s2 images).map Prod.fst).Nodup := by
  rw [pageResults_keys]
  exact List.nodup_range' 1 images.length

/-- C1: for any permutation of the per-page pipeline results of an N-page
document (any completion order of the concurrent invocations), sorting by
page number recovers exactly the task-order result list; hence the
assembled report has exactly N page sections, with page numbers 1..N in
ascending order, each rendered with its page marker prefix. -/
theorem C1_fanout_ordered_assembly {Img : Type} (s1 : Img → Except String String)
    (s2 : String → Except String String) (images : List Img)
    (rs : List (Nat × String)) (hperm : rs.Perm (pageResults s1 s2 images)) :
    sortResults rs = pageResults s1 s2 images ∧
      (sortResults rs).length = images.length ∧
      (sortResults rs).map Prod.fst = List.range' 1 images.length ∧
      assembleReport rs = pyJoin "\n" ((pageResults s1 s2 images).map renderSection) ∧
      ∀ r ∈ sortResults rs, renderSection r = "--- PAGE " ++ toString r.1 ++ " ---\n" ++ r.2 := by
  haveI : IsTotal (Nat × String) resultLE := ⟨fun a b => Nat.le_total a.1 b.1⟩
  haveI : IsTrans (Nat × String) resultLE := ⟨fun _ _ _ => Nat.le_trans⟩
  haveI : IsAntisymm (Nat × String) (fun a b : Nat × String => a.1 < b.1) :=
    ⟨fun a b hab hba => absurd (Nat.lt_trans hab hba) (Nat.lt_irrefl _)⟩
  have hsp : (sortResults rs).Perm (pageResults s1 s2 images) :=
    (List.perm_insertionSort resultLE rs).trans hperm
  have hnd : ((sortResults rs).map Prod.fst).Nodup :=
    ((hsp.map Prod.fst).symm).nodup (pageResults_keys_nodup s1 s2 images)
  have hle : List.Sorted resultLE (sortResults rs) :=
    List.sorted_insertionSort resultLE rs
  have hne : List.Pairwise (fun a b : Nat × String => a.1 ≠ b.1) (sortResults rs) :=
    List.pairwise_map.mp hnd
  have hlt : List.Sorted (fun a b : Nat × String => a.1 < b.1) (sortResults rs) :=
    (hle.and hne).imp (fun hab => Nat.lt_of_le_of_ne hab.1 hab.2)
  have heq : sortResults rs = pageResults s1 s2 images :=
    List.eq_of_perm_of_sorted hsp hlt (pageResults_sorted s1 s2 images)
  refine ⟨heq, ?_, ?_, ?_, fun r _ => rfl⟩
  · have := congrArg List.length (pageResults_keys s1 s2 images)
    rw [List.length_map, List.length_range'] at this
    rw [heq, this]
  · rw [heq, pageResults_keys]
  · unfold assembleReport
    rw [heq]

/-- Witness for C1: a two-page document whose results arrive in reversed
completion order. -/
theorem C1_fanout_ordered_assembly_witness :
    [(2, "C"), (1, "C")].Perm
        (pageResults (fun _ : Nat => Except.ok "R") (fun _ => Except.ok "C") [5, 6]) ∧
      sortResults [(2, "C"), (1, "C")]
        = pageResults (fun _ : Nat => Except.ok "R") (fun _ => Except.ok "C") [5, 6] := by
  have hperm : [(2, "C"), (1, "C")].Perm
      (pageResults (fun _ : Nat => Except.ok "R") (fun _ => Except.ok "C") [5, 6]) := by
    decide
  exact ⟨hperm, (C1_fanout_ordered_assembly (fun _ : Nat => Except.ok "R")
    (fun _ => Except.ok "C") [5, 6] [(2, "C"), (1, "C")] hperm).1⟩

/-- C8 counterexample: a file whose declared content type classifies it as
an image is nevertheless routed as a PDF because of its filename extension,
so the content type is not consulted first. -/
theorem C8_extension_overrides_content_type :
    mimeRoute "image/jpeg" = some Route.image ∧
      classify "image/jpeg" "scan.pdf" = Route.pdf ∧
      Route.image ≠ Route.pdf := by
  decide

/-- C8 as amended: the dispatcher tests the classes in a fixed priority
order, and inside the PDF, word-processor and plain-text branches the
content type and the filename extension are tested disjunctively; only when
the filename carries no recognized extension is the route determined by the
declared content type alone. -/
theorem C8_content_type_decides_without_ext (mime url : String)
    (h : noKnownExt url = true) :
    classify mime url = (mimeRoute mime).getD Route.unsupported := by
  simp only [noKnownExt, Bool.not_eq_true', Bool.or_eq_false_iff] at h
  obtain ⟨⟨h1, h2⟩, h3⟩ := h
  simp only [classify, mimeRoute, h1, h2, h3, Bool.or_false]
  split_ifs <;> rfl

/-- Witness for C8 as amended at a concrete unrecognized extension. -/
theorem C8_content_type_decides_without_ext_witness :
    noKnownExt "file.xyz" = true ∧
      classify "application/xyz" "file.xyz"
        = (mimeRoute "application/xyz").getD Route.unsupported :=
  ⟨by decide, C8_content_type_decides_without_ext "application/xyz" "file.xyz" (by decide)⟩

/-- C10: any request body with a files key yields HTTP 200 with top-level
status success, whatever the per-file outcomes; a missing body or one
without a files key yields HTTP 400 with an explicit error object. -/
theorem C10_webhook_statuses {Bytes Img : Type} (env : Env Bytes Img) (body : Option ReqBody) :
    (body = none → webhook env body = (400, Except.error "No files provided")) ∧
      (∀ d, body = some d → d.hasFilesKey = false →
        webhook env body = (400, Except.error "No files provided")) ∧
      (∀ d, body = some d → d.hasFilesKey = true →
        (webhook env body).1 = 200 ∧
          ∃ resp, (webhook env body).2 = Except.ok resp ∧ resp.status = "success" ∧
            resp.files_processed = (runFiles env d.files).2.1 ∧
            resp.total_pages = (runFiles env d.files).2.2) := by
  refine ⟨?_, ?_, ?_⟩
  · rintro rfl
    rfl
  · rintro d rfl hk
    simp [webhook, hk]
  · rintro d rfl hk
    refine ⟨by simp [webhook, hk], ?_⟩
    exact ⟨{ status := "success", message := "Processing completed successfully",
             files_processed := (runFiles env d.files).2.1,
             total_pages := (runFiles env d.files).2.2,
             drive_link := env.drive.map Prod.snd,
             report_text := if env.drive.isSome then none
               else some (pyJoin "\n" (reportBanner env d ++ (runFiles env d.files).1)) },
      by simp [webhook, hk], rfl, rfl, rfl⟩

/-- Witness for C10: a batch of one file whose download fails still yields
HTTP 200 with status success and zero files processed. -/
theorem C10_webhook_statuses_witness :
    (@webhook Nat Nat
        ⟨fun _ => none, fun _ => .error "x", fun _ => .error "x", fun _ => .error "x",
          fun _ => .error "x", fun _ _ => .error "x", fun _ => .error "x", fun _ => "",
          none, "t"⟩
        (some ⟨true, [⟨some "u", "f"⟩], none, none, none⟩)).1 = 200 ∧
      ∃ resp, (@webhook Nat Nat
        ⟨fun _ => none, fun _ => .error "x", fun _ => .error "x", fun _ => .error "x",
          fun _ => .error "x", fun _ _ => .error "x", fun _ => .error "x", fun _ => "",
          none, "t"⟩
        (some ⟨true, [⟨some "u", "f"⟩], none, none, none⟩)).2 = Except.ok resp ∧
        resp.status = "success" ∧
        resp.files_processed = (@runFiles Nat Nat
          ⟨fun _ => none, fun _ => .error "x", fun _ => .error "x", fun _ => .error "x",
            fun _ => .error "x", fun _ _ => .error "x", fun _ => .error "x", fun _ => "",
            none, "t"⟩ [⟨some "u", "f"⟩]).2.1 ∧
        resp.total_pages = (@runFiles Nat Nat
          ⟨fun _ => none, fun _ => .error "x", fun _ => .error "x", fun _ => .error "x",
            fun _ => .error "x", fun _ _ => .error "x", fun _ => .error "x", fun _ => "",
            none, "t"⟩ [⟨some "u", "f"⟩]).2.2 :=
  (C10_webhook_statuses _ _).2.2 ⟨true, [⟨some "u", "f"⟩], none, none, none⟩ rfl rfl

/-! ## Lemmas: the occurrence counter -/

theorem countOccurF_fuel (needle : List Char) :
    ∀ (f1 f2 : Nat) (l : List Char), l.length ≤ f1 → l.length ≤ f2 →
      countOccurF needle f1 l = countOccurF needle f2 l := by
  intro f1
  induction f1 with
  | zero =>
    intro f2 l h1 _
    have : l = [] := List.length_eq_zero.mp (Nat.le_zero.mp h1)
    subst this
    cases f2 <;> rfl
  | succ f ih =>
    intro f2 l h1 h2
    cases l with
    | nil => cases f2 <;> rfl
    | cons c t =>
      cases f2 with
      | zero => simp at h2
      | succ f2 =>
        simp only [List.length_cons] at h1 h2
        simp only [countOccurF]
        by_cases hp : needle.isPrefixOf (c :: t)
        · rw [if_pos hp, if_pos hp]
          have hd : (t.drop (needle.length - 1)).length ≤ t.length := by
            simp [List.length_drop]
          exact congrArg (1 + ·) (ih f2 _ (by omega) (by omega))
        · rw [if_neg hp, if_neg hp]
          exact ih f2 t (by omega) (by omega)

theorem countOccur_nil (needle : List Char) : countOccur needle [] = 0 := rfl

theorem countOccur_cons (needle : List Char) (c : Char) (t : List Char) :
    countOccur needle (c :: t)
      = if needle.isPrefixOf (c :: t) then 1 + countOccur needle (t.drop (needle.length - 1))
        else countOccur needle t := by
  show countOccurF needle (c :: t).length (c :: t) = _
  simp only [List.length_cons, countOccurF]
  by_cases hp : needle.isPrefixOf (c :: t)
  · rw [if_pos hp, if_pos hp]
    have hd : (t.drop (needle.length - 1)).length ≤ t.length := by
      simp [List.length_drop]
    exact congrArg (1 + ·) (countOccurF_fuel needle t.length _ _ hd (Nat.le_refl _))
  · rw [if_neg hp, if_neg hp]
    rfl

/-- A nonempty needle standing at the head of the haystack is counted once,
and the scan resumes right after it. -/
theorem countOccur_self_append (needle r : List Char) (hne : needle ≠ []) :
    countOccur needle (needle ++ r) = 1 + countOccur needle r := by
  cases needle with
  | nil => exact absurd rfl hne
  | cons c nt =>
    rw [List.cons_append, countOccur_cons]
    have hp : (c :: nt).isPrefixOf (c :: (nt ++ r)) := by
      rw [List.isPrefixOf_iff_prefix, ← List.cons_append]
      exact List.prefix_append _ _
    rw [if_pos hp]
    congr 1
    simp only [List.length_cons, Nat.add_sub_cancel]
    rw [List.drop_left]

theorem countOccur_cons_of_not_prefixOf (needle : List Char) (c : Char) (t : List Char)
    (h : needle.isPrefixOf (c :: t) = false) :
    countOccur needle (c :: t) = countOccur needle t := by
  rw [countOccur_cons, h]
  simp

theorem isPrefixOf_cons_head_false (d : Char) (nt : List Char) (c : Char) (t : List Char)
    (h : (d == c) = false) : (d :: nt).isPrefixOf (c :: t) = false := by
  simp [List.isPrefixOf, h]

/-- Splitting the count at a character that does not occur in the needle: no
occurrence can span the split point. -/
theorem countOccur_append_cons_aux (needle : List Char) (c : Char) (hc : c ∉ needle) :
    ∀ (n : Nat) (a b : List Char), a.length ≤ n →
      countOccur needle (a ++ c :: b)
        = countOccur needle a + countOccur needle (c :: b) := by
  intro n
  induction n with
  | zero =>
    intro a b ha
    have : a = [] := List.length_eq_zero.mp (Nat.le_zero.mp ha)
    subst this
    simp [countOccur_nil]
  | succ n ih =>
    intro a b ha
    cases a with
    | nil => simp [countOccur_nil]
    | cons x a2 =>
      have hlen : a2.length ≤ n := by
        simp only [List.length_cons] at ha
        omega
      rw [List.cons_append, countOccur_cons needle x (a2 ++ c :: b), countOccur_cons needle x a2]
      by_cases hp : needle.isPrefixOf (x :: (a2 ++ c :: b))
      · have hpre : needle <+: (x :: a2) ++ (c :: b) := by
          rw [List.isPrefixOf_iff_prefix] at hp
          simpa using hp
        have hle : needle.length ≤ (x :: a2).length := by
          by_contra hgt
          push_neg at hgt
          have htake := List.prefix_iff_eq_take.mp hpre
          have hmem : c ∈ needle := by
            rw [htake, List.take_append_eq_append_take]
            have hk : needle.length - (x :: a2).length
                = (needle.length - (x :: a2).length - 1) + 1 := by omega
            rw [hk, List.take_succ_cons]
            exact List.mem_append_right _ (List.mem_cons_self _ _)
          exact hc hmem
        have hpa : needle.isPrefixOf (x :: a2) := by
          rw [List.isPrefixOf_iff_prefix]
          have h0 : needle.length - (x :: a2).length = 0 := by omega
          have heq : needle = List.take needle.length (x :: a2) := by
            conv_lhs => rw [List.prefix_iff_eq_take.mp hpre]
            rw [List.take_append_eq_append_take, h0, List.take_zero, List.append_nil]
          exact List.prefix_iff_eq_take.mpr heq
        rw [if_pos hp, if_pos hpa]
        have hd : (a2 ++ c :: b).drop (needle.length - 1)
            = a2.drop (needle.length - 1) ++ c :: b := by
          rw [List.drop_append_eq_append_drop]
          have h0 : needle.length - 1 - a2.length = 0 := by
            simp only [List.length_cons] at hle
            omega
          rw [h0, List.drop_zero]
        have hdl : (a2.drop (needle.length - 1)).length ≤ n := by
          simp only [List.length_drop]
          omega
        rw [hd, ih (a2.drop (needle.length - 1)) b hdl]
        omega
      · have hpa : needle.isPrefixOf (x :: a2) = false := by
          rw [Bool.eq_false_iff]
          intro hq
          apply hp
          rw [List.isPrefixOf_iff_prefix] at hq ⊢
          have := hq.trans (List.prefix_append (x :: a2) (c :: b))
          simpa using this
        rw [if_neg hp, if_neg (by simp [hpa]), ih a2 b hlen]

theorem countOccur_append_cons (needle : List Char) (c : Char) (hc : c ∉ needle)
    (a b : List Char) :
    countOccur needle (a ++ c :: b) = countOccur needle a + countOccur needle (c :: b) :=
  countOccur_append_cons_aux needle c hc a.length a b (Nat.le_refl _)

/-- Counting the page marker in one rendered block `marker ++ mid ++ LF ++ t`
where the interlude and the page text are marker-free. -/
theorem countOccur_marker_block (mid t : List Char)
    (hmid : countOccur markerChars mid = 0)
    (ht : countOccur markerChars t = 0) :
    countOccur markerChars (markerChars ++ (mid ++ '\n' :: t)) = 1 := by
  rw [countOccur_self_append markerChars _ (by decide)]
  rw [countOccur_append_cons markerChars '\n' (by decide) mid t, hmid]
  have hM : markerChars = '-' :: "-- PAGE".toList := by decide
  rw [hM, countOccur_cons_of_not_prefixOf _ '\n' t (isPrefixOf_cons_head_false _ _ _ _ (by decide)), ← hM]
  rw [ht]

/-- Counting the page marker never matches right after a newline. -/
theorem countOccur_LF_cons (t : List Char) :
    countOccur markerChars ('\n' :: t) = countOccur markerChars t := by
  have hM : markerChars = '-' :: "-- PAGE".toList := by decide
  rw [hM, countOccur_cons_of_not_prefixOf _ '\n' t (isPrefixOf_cons_head_false _ _ _ _ (by decide))]

/-- Counting the page marker over one rendered block: one marker at the
head, then a marker-free interlude up to the first newline, then the rest. -/
theorem countOccur_marker_head (mid t : List Char)
    (hmid : countOccur markerChars mid = 0) :
    countOccur markerChars (markerChars ++ (mid ++ '\n' :: t))
      = 1 + countOccur markerChars t := by
  rw [countOccur_self_append markerChars _ (by decide),
    countOccur_append_cons markerChars '\n' (by decide) mid t, hmid, countOccur_LF_cons]
  omega

/-- Cons-normal-form variant of `countOccur_marker_head` for a one-digit
page number. -/
theorem countOccur_marker_page (d : Char) (t : List Char)
    (hd : countOccur markerChars [' ', d, ' ', '-', '-', '-'] = 0) :
    countOccur markerChars (markerChars ++ ' ' :: d :: ' ' :: '-' :: '-' :: '-' :: '\n' :: t)
      = 1 + countOccur markerChars t :=
  countOccur_marker_head [' ', d, ' ', '-', '-', '-'] t hd

/-- Distribution of `String.toList` over append. -/
theorem toList_append (a b : String) : (a ++ b).toList = a.toList ++ b.toList := by
  simp [String.toList, String.data_append]

/-- C9: the two-file batch of one 2-page PDF and one file of unrecognized
type yields `files_processed = 2` and `total_pages = 2`; the unrecognized
file counts as processed and contributes an explicit unsupported-file-type
marker line to the report, and the PDF contribution to `total_pages` is the
number of page markers counted in its emitted text.  The hypotheses say the
two page texts do not themselves contain the marker. -/
theorem C9_batch_summary (s1 : Nat → Except String String)
    (s2 : String → Except String String)
    (h1 : strCount (process_page_pipeline s1 s2 0 1).1.2 "--- PAGE" = 0)
    (h2 : strCount (process_page_pipeline s1 s2 1 2).1.2 "--- PAGE" = 0) :
    (runFiles (envC9 s1 s2) batchC9).2.1 = 2 ∧
      (runFiles (envC9 s1 s2) batchC9).2.2
        = strCount (process_pdf s1 s2 [0, 1]) "--- PAGE" ∧
      (runFiles (envC9 s1 s2) batchC9).2.2 = 2 ∧
      "[UNSUPPORTED FILE TYPE: application/xyz]" ∈ (runFiles (envC9 s1 s2) batchC9).1 ∧
      ∃ resp, (webhook (envC9 s1 s2) (some ⟨true, batchC9, none, none, none⟩)).2
          = Except.ok resp ∧ resp.files_processed = 2 ∧ resp.total_pages = 2 := by
  rcases hp1 : process_page_pipeline s1 s2 0 1 with ⟨⟨n1, t1⟩, tr1⟩
  rcases hp2 : process_page_pipeline s1 s2 1 2 with ⟨⟨n2, t2⟩, tr2⟩
  have hn1 : n1 = 1 := by
    have h := process_page_pipeline_fst s1 s2 0 1
    rw [hp1] at h
    exact h
  have hn2 : n2 = 2 := by
    have h := process_page_pipeline_fst s1 s2 1 2
    rw [hp2] at h
    exact h
  subst hn1
  subst hn2
  rw [hp1] at h1
  rw [hp2] at h2
  have h1' : countOccur markerChars t1.toList = 0 := h1
  have h2' : countOccur markerChars t2.toList = 0 := h2
  have hclass1 : classify "application/pdf" "a.pdf" = Route.pdf := by decide
  have hclass2 : classify "application/xyz" "b.xyz" = Route.unsupported := by decide
  have hne : ¬(("b.xyz" : String) = "a.pdf") := by decide
  have hpr : pageResults s1 s2 [0, 1] = [(1, t1), (2, t2)] := by
    simp [pageResults, List.enum, hp1, hp2]
  have hsort : sortResults [(1, t1), (2, t2)] = [(1, t1), (2, t2)] := by
    simp [sortResults, List.insertionSort, List.orderedInsert, resultLE]
  have hpdf : process_pdf s1 s2 [0, 1]
      = ("--- PAGE " ++ toString 1 ++ " ---\n" ++ t1) ++ "\n"
        ++ ("--- PAGE " ++ toString 2 ++ " ---\n" ++ t2) := by
    simp [process_pdf, assembleReport, hpr, hsort, renderSection, pyJoin]
  have e1 : ("--- PAGE " : String).toList = markerChars ++ [' '] := by decide
  have eT1 : (toString (1 : Nat)).toList = ['1'] := by decide
  have eT2 : (toString (2 : Nat)).toList = ['2'] := by decide
  have e4 : (" ---\n" : String).toList = [' ', '-', '-', '-', '\n'] := by decide
  have e5 : ("\n" : String).toList = ['\n'] := by decide
  have e0 : ("--- PAGE" : String).toList = markerChars := rfl
  have hcount : strCount (process_pdf s1 s2 [0, 1]) "--- PAGE" = 2 := by
    rw [hpdf]
    simp only [strCount, toList_append]
    rw [e0, e1, eT1, eT2, e4, e5]
    simp only [List.append_assoc, List.cons_append, List.nil_append, List.singleton_append]
    rw [countOccur_marker_page '1' _ (by decide),
      countOccur_append_cons markerChars '\n' (by decide) t1.toList _, h1',
      countOccur_LF_cons, countOccur_marker_page '2' _ (by decide), h2']
  have hfp : (runFiles (envC9 s1 s2) batchC9).2.1 = 2 := by
    simp [runFiles, batchC9, processOneFile, envC9, hclass1, hclass2, hne]
  have htp : (runFiles (envC9 s1 s2) batchC9).2.2
      = strCount (process_pdf s1 s2 [0, 1]) "--- PAGE" := by
    simp [runFiles, batchC9, processOneFile, envC9, hclass1, hclass2, hne]
  have hmem : "[UNSUPPORTED FILE TYPE: application/xyz]" ∈ (runFiles (envC9 s1 s2) batchC9).1 := by
    have heq : ("[UNSUPPORTED FILE TYPE: " ++ "application/xyz" ++ "]" : String)
        = "[UNSUPPORTED FILE TYPE: application/xyz]" := by decide
    simp [runFiles, batchC9, processOneFile, envC9, hclass1, hclass2, hne, heq]
  refine ⟨hfp, htp, htp.trans hcount, hmem, ?_⟩
  exact ⟨{ status := "success", message := "Processing completed successfully",
           files_processed := (runFiles (envC9 s1 s2) batchC9).2.1,
           total_pages := (runFiles (envC9 s1 s2) batchC9).2.2,
           drive_link := ((envC9 s1 s2).drive).map Prod.snd,
           report_text := if ((envC9 s1 s2).drive).isSome then none
             else some (pyJoin "\n" (reportBanner (envC9 s1 s2) ⟨true, batchC9, none, none, none⟩
               ++ (runFiles (envC9 s1 s2) batchC9).1)) },
    rfl, hfp, htp.trans hcount⟩

/-- Witness for C9 at concrete stage oracles whose page texts are
marker-free. -/
theorem C9_batch_summary_witness :
    strCount (process_page_pipeline (fun _ : Nat => Except.ok "raw")
        (fun _ => Except.ok "text") 0 1).1.2 "--- PAGE" = 0 ∧
      strCount (process_page_pipeline (fun _ : Nat => Except.ok "raw")
        (fun _ => Except.ok "text") 1 2).1.2 "--- PAGE" = 0 ∧
      (runFiles (envC9 (fun _ : Nat => Except.ok "raw") (fun _ => Except.ok "text")) batchC9).2.1 = 2 ∧
      (runFiles (envC9 (fun _ : Nat => Except.ok "raw") (fun _ => Except.ok "text")) batchC9).2.2 = 2 := by
  have h := C9_batch_summary (fun _ : Nat => Except.ok "raw") (fun _ => Except.ok "text")
    (by decide) (by decide)
  exact ⟨by decide, by decide, h.1, h.2.2.1⟩

